import Mathlib

/-
  Verification of the DarkForge candidate-generation engine
  (src/modules/pattern_generator.py and the UserProfile model of
  src/modules/data_input/collector.py), as a shallow embedding in Lean 4.

  Python strings are modelled as Lean `String` (both sequences of Unicode
  code points); Python `int` as `Int`; Python `None` as a dedicated value;
  the field dictionary built by `compute_extra_fields` as a structure whose
  fields carry exactly the values the source stores under each key, read
  back through a string-keyed lookup `dictGet` (absent key = `Option.none`,
  which is Python's `KeyError` case).  Exceptions are modelled with
  `Except PyErr`.  Case mappings (`upper`/`lower`/`capitalize`) are modelled
  with Lean's ASCII `Char.toUpper`/`Char.toLower`.
-/

namespace DarkForge

/-- Kinds of Python exception relevant to the engine: `str.format` raises
`KeyError` for a missing field name, `ValueError` for a bad format-code /
argument (also `str.maketrans` with unequal-length arguments), and
`TypeError` when a numeric format code is applied to `None` or a list. -/
inductive PyErr where
  | keyError
  | valueError
  | typeError
deriving DecidableEq, Repr

/-- A Python runtime value as stored in the `compute_extra_fields` dict:
a string, an int, `None`, or a list of strings (`device_names`). -/
inductive Val where
  | str (v : String)
  | int (v : Int)
  | none
  | list (v : List String)
deriving DecidableEq, Repr

/-- Python truthiness of a `Val` (`if data[...]:`). -/
def pyTruthy : Val → Bool
  | .str v => v ≠ ""
  | .int v => v ≠ 0
  | .none => false
  | .list v => ¬ v.isEmpty

/-- Python `a or b`: `a` if truthy, else `b`. -/
def pyOr (a b : Val) : Val := if pyTruthy a then a else b

/-- The value stored in the profile dict for an `Optional[str]` field:
the string itself, or Python `None`. -/
def optVal : Option String → Val
  | some v => .str v
  | Option.none => .none

/-- The value stored for the `Optional[int]` field `favorite_number`. -/
def optIntVal : Option Int → Val
  | some v => .int v
  | Option.none => .none

/-- Python `s[:n]` for a nonnegative slice bound. -/
def pyTake (n : Nat) (s : String) : String := String.mk (s.data.take n)

/-- Python `s[n:]` for a nonnegative slice bound. -/
def pyDrop (n : Nat) (s : String) : String := String.mk (s.data.drop n)

/-- Python `s[-n:]` (the last `n` code points, or all of `s` if shorter). -/
def pyTakeRight (n : Nat) (s : String) : String :=
  String.mk (s.data.drop (s.data.length - n))

/-- Python `s[:-n]` (drop the last `n` code points). -/
def pyDropRight (n : Nat) (s : String) : String :=
  String.mk (s.data.take (s.data.length - n))

/-- Python `s[::-1]`. -/
def pyReverse (s : String) : String := String.mk s.data.reverse

/-- Python `str(v)` on the values the dict can hold.  `None` renders as the
literal text `"None"`; a list renders as its `repr` (quote escaping inside
elements is not modelled since no template references a list-valued key). -/
def pyStr : Val → String
  | .str v => v
  | .int v => toString v
  | .none => "None"
  | .list v => "[" ++ String.intercalate ", " (v.map (fun x => "'" ++ x ++ "'")) ++ "]"

/-- Python `format(n, "02d")`: minimum width 2, zero-filled after the sign. -/
def pyFormat02d (n : Int) : String :=
  let sign := if n < 0 then "-" else ""
  let digits := toString n.natAbs
  let fill := String.mk (List.replicate (2 - (sign.length + digits.length)) '0')
  sign ++ fill ++ digits

/-- Python `s.capitalize()`: first code point upper-cased, rest lower-cased. -/
def pyCapitalize (s : String) : String :=
  (pyTake 1 s).toUpper ++ (pyDrop 1 s).toLower

/-- Python `str.maketrans(a, b)` for two string arguments: a char-to-char
table, or `ValueError` when the arguments have different lengths. -/
def pyMaketrans (a b : String) : Except PyErr (List (Char × Char)) :=
  if a.length = b.length then .ok (a.data.zip b.data) else .error .valueError

/-- Python `s.translate(table)` for a char-to-char table. -/
def pyTranslate (table : List (Char × Char)) (s : String) : String :=
  String.mk (s.data.map (fun c => match table.lookup c with
    | some r => r
    | Option.none => c))

/-- Python `s.replace(old, new)` for single-character `old` and `new`. -/
def pyReplace1 (old new : Char) (s : String) : String :=
  String.mk (s.data.map (fun c => if c = old then new else c))

/-- The validated profile record (`UserProfile` Pydantic model of
src/modules/data_input/collector.py).  Required fields are plain values,
optional fields are `Option` (absent = Python `None`), `device_names`
defaults to the empty list. -/
structure UserProfile where
  first_name : String
  last_name : String
  nickname : Option String := Option.none
  birthdate : Int
  birth_month : Int
  birth_year : Int
  birthplace : String
  residence : String
  phone_number : String
  email : String
  father_name : Option String := Option.none
  mother_name : Option String := Option.none
  spouse_name : Option String := Option.none
  child_name : Option String := Option.none
  pet_name : Option String := Option.none
  company_name : Option String := Option.none
  ex_partner_name : Option String := Option.none
  school_name : Option String := Option.none
  college_name : Option String := Option.none
  favorite_movie : Option String := Option.none
  favorite_song : Option String := Option.none
  favorite_band : Option String := Option.none
  favorite_sport : Option String := Option.none
  favorite_book : Option String := Option.none
  favorite_celebrity : Option String := Option.none
  gamer_tag : Option String := Option.none
  device_names : List String := []
  favorite_number : Option Int := Option.none
  facebook_id : Option String := Option.none
  twitter_id : Option String := Option.none
  instagram_id : Option String := Option.none
  linkedin_id : Option String := Option.none
  github_id : Option String := Option.none
  reddit_id : Option String := Option.none
  tiktok_id : Option String := Option.none
  snapchat_id : Option String := Option.none
  pinterest_id : Option String := Option.none
  youtube_id : Option String := Option.none
deriving DecidableEq, Repr

/-- The dictionary produced by `compute_extra_fields`: the original profile
entries (with the in-place overwrites the source performs on `nickname`,
the `favorite_*` keys and `favorite_number`) plus every derived key, each
field holding exactly the Python value stored under that dict key. -/
structure Fields where
  first_name : String
  last_name : String
  nickname : String
  birthdate : Int
  birth_month : Int
  birth_year : Int
  birthplace : String
  residence : String
  phone_number : String
  email : String
  father_name : Option String
  mother_name : Option String
  spouse_name : Option String
  child_name : Option String
  pet_name : Option String
  company_name : Option String
  ex_partner_name : Option String
  school_name : Option String
  college_name : Option String
  favorite_movie : Val
  favorite_song : Val
  favorite_band : Val
  favorite_sport : Val
  favorite_book : Val
  favorite_celebrity : Val
  gamer_tag : Option String
  device_names : List String
  favorite_number : Val
  facebook_id : Option String
  twitter_id : Option String
  instagram_id : Option String
  linkedin_id : Option String
  github_id : Option String
  reddit_id : Option String
  tiktok_id : Option String
  snapchat_id : Option String
  pinterest_id : Option String
  youtube_id : Option String
  birthdate_str : String
  birth_month_str : String
  birth_year_short : String
  birth_year_last : String
  birth_year_first : String
  birth_year_middle : String
  first_name_short_3 : String
  last_name_short_3 : String
  first_name_short_2 : String
  last_name_short_2 : String
  first_name_short_4 : String
  last_name_short_4 : String
  first_name_middle : String
  last_name_middle : String
  first_name_initial : String
  last_name_initial : String
  father_name_initial : String
  mother_name_initial : String
  spouse_name_initial : String
  child_name_initial : String
  pet_name_initial : String
  device_name : String
  social_id : Val
  residence_short : String
  birthplace_short : String
  phone_last4 : String
  phone_first3 : String
  phone_middle : String
  first_name_rev : String
  last_name_rev : String
  birth_year_rev : String
  first_name_lower : String
  last_name_lower : String
  first_name_upper : String
  last_name_upper : String
  first_name_cap : String
  last_name_cap : String

/-- Helper for the guarded initial derivations on required string fields:
`data[k][0].upper() if data[k] else ""`. -/
def strInitial (s : String) : String :=
  if s ≠ "" then (pyTake 1 s).toUpper else ""

/-- Helper for the guarded initial derivations on optional string fields:
`data[k][0].upper() if data.get(k) else ""` (the stored value is truthy
exactly when it is a non-empty string). -/
def optInitial : Option String → String
  | some s => if s ≠ "" then (pyTake 1 s).toUpper else ""
  | Option.none => ""

/-- `compute_extra_fields` of src/modules/pattern_generator.py: the profile
dict plus every derived field, each expression transcribed from the source. -/
def compute_extra_fields (p : UserProfile) : Fields :=
  { first_name := p.first_name
    last_name := p.last_name
    -- `if "nickname" not in data or data["nickname"] is None: data["nickname"] = ""`
    nickname := match p.nickname with
      | some s => s
      | Option.none => ""
    birthdate := p.birthdate
    birth_month := p.birth_month
    birth_year := p.birth_year
    birthplace := p.birthplace
    residence := p.residence
    phone_number := p.phone_number
    email := p.email
    father_name := p.father_name
    mother_name := p.mother_name
    spouse_name := p.spouse_name
    child_name := p.child_name
    pet_name := p.pet_name
    company_name := p.company_name
    ex_partner_name := p.ex_partner_name
    school_name := p.school_name
    college_name := p.college_name
    -- `data["favorite_X"] = data.get("favorite_X", "") or ""` (key always present)
    favorite_movie := pyOr (optVal p.favorite_movie) (.str "")
    favorite_song := pyOr (optVal p.favorite_song) (.str "")
    favorite_band := pyOr (optVal p.favorite_band) (.str "")
    favorite_sport := pyOr (optVal p.favorite_sport) (.str "")
    favorite_book := pyOr (optVal p.favorite_book) (.str "")
    favorite_celebrity := pyOr (optVal p.favorite_celebrity) (.str "")
    gamer_tag := p.gamer_tag
    device_names := p.device_names
    favorite_number := pyOr (optIntVal p.favorite_number) (.str "")
    facebook_id := p.facebook_id
    twitter_id := p.twitter_id
    instagram_id := p.instagram_id
    linkedin_id := p.linkedin_id
    github_id := p.github_id
    reddit_id := p.reddit_id
    tiktok_id := p.tiktok_id
    snapchat_id := p.snapchat_id
    pinterest_id := p.pinterest_id
    youtube_id := p.youtube_id
    birthdate_str := pyFormat02d p.birthdate
    birth_month_str := pyFormat02d p.birth_month
    birth_year_short := pyTakeRight 2 (toString p.birth_year)
    birth_year_last := pyTakeRight 1 (toString p.birth_year)
    birth_year_first := pyTake 1 (toString p.birth_year)
    birth_year_middle := pyTake 2 (pyDrop 1 (toString p.birth_year))
    first_name_short_3 := if p.first_name ≠ "" then pyTake 3 p.first_name else ""
    last_name_short_3 := if p.last_name ≠ "" then pyTake 3 p.last_name else ""
    first_name_short_2 := if p.first_name ≠ "" then pyTake 2 p.first_name else ""
    last_name_short_2 := if p.last_name ≠ "" then pyTake 2 p.last_name else ""
    first_name_short_4 :=
      if p.first_name ≠ "" ∧ p.first_name.length ≥ 4 then pyTake 4 p.first_name
      else p.first_name
    last_name_short_4 :=
      if p.last_name ≠ "" ∧ p.last_name.length ≥ 4 then pyTake 4 p.last_name
      else p.last_name
    first_name_middle :=
      if p.first_name ≠ "" ∧ p.first_name.length ≥ 3 then pyDropRight 1 (pyDrop 1 p.first_name)
      else ""
    last_name_middle :=
      if p.last_name ≠ "" ∧ p.last_name.length ≥ 3 then pyDropRight 1 (pyDrop 1 p.last_name)
      else ""
    first_name_initial := strInitial p.first_name
    last_name_initial := strInitial p.last_name
    father_name_initial := optInitial p.father_name
    mother_name_initial := optInitial p.mother_name
    spouse_name_initial := optInitial p.spouse_name
    child_name_initial := optInitial p.child_name
    pet_name_initial := optInitial p.pet_name
    device_name := match p.device_names with
      | [] => ""
      | d :: _ => d
    -- `data.get("instagram_id", "") or data.get("facebook_id", "") or data.get("twitter_id", "")`
    -- (all three keys are always present, so `.get`'s default is never used)
    social_id := pyOr (optVal p.instagram_id) (pyOr (optVal p.facebook_id) (optVal p.twitter_id))
    residence_short := if p.residence ≠ "" then pyTake 4 p.residence else ""
    birthplace_short := if p.birthplace ≠ "" then pyTake 4 p.birthplace else ""
    phone_last4 :=
      if p.phone_number ≠ "" then
        (if p.phone_number.length ≥ 10 then pyTakeRight 4 p.phone_number else p.phone_number)
      else ""
    phone_first3 :=
      if p.phone_number ≠ "" then
        (if p.phone_number.length ≥ 10 then pyTake 3 p.phone_number else p.phone_number)
      else ""
    phone_middle :=
      if p.phone_number ≠ "" then
        (if p.phone_number.length ≥ 10 then pyTake 3 (pyDrop 3 p.phone_number) else p.phone_number)
      else ""
    first_name_rev := if p.first_name ≠ "" then pyReverse p.first_name else ""
    last_name_rev := if p.last_name ≠ "" then pyReverse p.last_name else ""
    birth_year_rev := pyReverse (toString p.birth_year)
    first_name_lower := if p.first_name ≠ "" then p.first_name.toLower else ""
    last_name_lower := if p.last_name ≠ "" then p.last_name.toLower else ""
    first_name_upper := if p.first_name ≠ "" then p.first_name.toUpper else ""
    last_name_upper := if p.last_name ≠ "" then p.last_name.toUpper else ""
    first_name_cap := if p.first_name ≠ "" then pyCapitalize p.first_name else ""
    last_name_cap := if p.last_name ≠ "" then pyCapitalize p.last_name else "" }

/-- String-keyed read access to the dict (`computed_data[key]` during
`str.format`): `Option.none` means the key is absent, i.e. `KeyError`. -/
def dictGet (d : Fields) : String → Option Val
  | "first_name" => some (.str d.first_name)
  | "last_name" => some (.str d.last_name)
  | "nickname" => some (.str d.nickname)
  | "birthdate" => some (.int d.birthdate)
  | "birth_month" => some (.int d.birth_month)
  | "birth_year" => some (.int d.birth_year)
  | "birthplace" => some (.str d.birthplace)
  | "residence" => some (.str d.residence)
  | "phone_number" => some (.str d.phone_number)
  | "email" => some (.str d.email)
  | "father_name" => some (optVal d.father_name)
  | "mother_name" => some (optVal d.mother_name)
  | "spouse_name" => some (optVal d.spouse_name)
  | "child_name" => some (optVal d.child_name)
  | "pet_name" => some (optVal d.pet_name)
  | "company_name" => some (optVal d.company_name)
  | "ex_partner_name" => some (optVal d.ex_partner_name)
  | "school_name" => some (optVal d.school_name)
  | "college_name" => some (optVal d.college_name)
  | "favorite_movie" => some d.favorite_movie
  | "favorite_song" => some d.favorite_song
  | "favorite_band" => some d.favorite_band
  | "favorite_sport" => some d.favorite_sport
  | "favorite_book" => some d.favorite_book
  | "favorite_celebrity" => some d.favorite_celebrity
  | "gamer_tag" => some (optVal d.gamer_tag)
  | "device_names" => some (.list d.device_names)
  | "favorite_number" => some d.favorite_number
  | "facebook_id" => some (optVal d.facebook_id)
  | "twitter_id" => some (optVal d.twitter_id)
  | "instagram_id" => some (optVal d.instagram_id)
  | "linkedin_id" => some (optVal d.linkedin_id)
  | "github_id" => some (optVal d.github_id)
  | "reddit_id" => some (optVal d.reddit_id)
  | "tiktok_id" => some (optVal d.tiktok_id)
  | "snapchat_id" => some (optVal d.snapchat_id)
  | "pinterest_id" => some (optVal d.pinterest_id)
  | "youtube_id" => some (optVal d.youtube_id)
  | "birthdate_str" => some (.str d.birthdate_str)
  | "birth_month_str" => some (.str d.birth_month_str)
  | "birth_year_short" => some (.str d.birth_year_short)
  | "birth_year_last" => some (.str d.birth_year_last)
  | "birth_year_first" => some (.str d.birth_year_first)
  | "birth_year_middle" => some (.str d.birth_year_middle)
  | "first_name_short_3" => some (.str d.first_name_short_3)
  | "last_name_short_3" => some (.str d.last_name_short_3)
  | "first_name_short_2" => some (.str d.first_name_short_2)
  | "last_name_short_2" => some (.str d.last_name_short_2)
  | "first_name_short_4" => some (.str d.first_name_short_4)
  | "last_name_short_4" => some (.str d.last_name_short_4)
  | "first_name_middle" => some (.str d.first_name_middle)
  | "last_name_middle" => some (.str d.last_name_middle)
  | "first_name_initial" => some (.str d.first_name_initial)
  | "last_name_initial" => some (.str d.last_name_initial)
  | "father_name_initial" => some (.str d.father_name_initial)
  | "mother_name_initial" => some (.str d.mother_name_initial)
  | "spouse_name_initial" => some (.str d.spouse_name_initial)
  | "child_name_initial" => some (.str d.child_name_initial)
  | "pet_name_initial" => some (.str d.pet_name_initial)
  | "device_name" => some (.str d.device_name)
  | "social_id" => some d.social_id
  | "residence_short" => some (.str d.residence_short)
  | "birthplace_short" => some (.str d.birthplace_short)
  | "phone_last4" => some (.str d.phone_last4)
  | "phone_first3" => some (.str d.phone_first3)
  | "phone_middle" => some (.str d.phone_middle)
  | "first_name_rev" => some (.str d.first_name_rev)
  | "last_name_rev" => some (.str d.last_name_rev)
  | "birth_year_rev" => some (.str d.birth_year_rev)
  | "first_name_lower" => some (.str d.first_name_lower)
  | "last_name_lower" => some (.str d.last_name_lower)
  | "first_name_upper" => some (.str d.first_name_upper)
  | "last_name_upper" => some (.str d.last_name_upper)
  | "first_name_cap" => some (.str d.first_name_cap)
  | "last_name_cap" => some (.str d.last_name_cap)
  | _ => Option.none

/-- One piece of a format string: a literal run, a plain replacement field
`\x7bkey\x7d`, or a zero-padded numeric replacement field `\x7bkey:02d\x7d`. -/
inductive Item where
  | lit (s : String)
  | field (k : String)
  | num (k : String)
deriving DecidableEq, Repr

/-- A template of the catalog, as its parsed sequence of pieces. -/
abbrev Template := List Item

/-- Evaluation of one format-string piece, following `str.format`:
a missing key is `KeyError`; `:02d` on a string is `ValueError`; `:02d` on
`None` or a list is `TypeError`. -/
def formatItem (d : Fields) : Item → Except PyErr String
  | .lit s => .ok s
  | .field k =>
    match dictGet d k with
    | Option.none => .error .keyError
    | some v => .ok (pyStr v)
  | .num k =>
    match dictGet d k with
    | Option.none => .error .keyError
    | some (.int n) => .ok (pyFormat02d n)
    | some (.str _) => .error .valueError
    | some _ => .error .typeError

/-- `template.format(**computed_data)`: pieces are rendered left to right
and concatenated; the first failing piece determines the exception. -/
def formatTemplate (d : Fields) : Template → Except PyErr String
  | [] => .ok ""
  | item :: rest =>
    match formatItem d item with
    | .error e => .error e
    | .ok s =>
      match formatTemplate d rest with
      | .error e => .error e
      | .ok r => .ok (s ++ r)

/-- The template catalog `ALGORITHM_TEMPLATE` of
src/modules/pattern_generator.py, each format string parsed into its pieces
(order preserved; 416 entries). -/
def templatesChunk0 : List Template := [
  [.field "first_name", .field "last_name"],
  [.field "first_name_lower", .field "last_name_lower"],
  [.field "first_name_upper", .field "last_name_upper"],
  [.field "first_name_cap", .field "last_name_cap"],
  [.field "first_name", .lit "_", .field "last_name"],
  [.field "first_name", .lit ".", .field "last_name"],
  [.field "first_name", .lit "-", .field "last_name"],
  [.field "last_name", .field "first_name"],
  [.field "last_name", .lit "_", .field "first_name"],
  [.field "last_name", .lit ".", .field "first_name"],
  [.field "last_name", .lit "-", .field "first_name"],
  [.field "first_name", .field "birth_year"],
  [.field "last_name", .field "birth_year"],
  [.field "first_name", .field "birth_year_short"],
  [.field "last_name", .field "birth_year_short"],
  [.field "nickname", .field "birth_year"],
  [.field "nickname", .field "birth_year_short"],
  [.field "first_name", .field "last_name", .field "birth_year"],
  [.field "first_name", .field "last_name", .field "birth_year_short"],
  [.field "last_name", .field "first_name", .field "birth_year"],
  [.field "last_name", .field "first_name", .field "birth_year_short"],
  [.field "first_name", .lit "_", .field "birth_year"],
  [.field "last_name", .lit "_", .field "birth_year"],
  [.field "birth_year", .lit "_", .field "first_name"],
  [.field "birth_year", .lit "_", .field "last_name"],
  [.field "first_name", .field "birth_year_first", .field "birth_year_middle", .field "birth_year_last"],
  [.field "last_name", .field "birth_year_first", .field "birth_year_middle", .field "birth_year_last"],
  [.field "first_name", .num "birth_month", .field "birth_year"],
  [.field "last_name", .num "birth_month", .field "birth_year"],
  [.field "first_name", .num "birth_month", .field "birth_year_short"],
  [.field "last_name", .num "birth_month", .field "birth_year_short"],
  [.field "first_name", .num "birthdate", .field "birth_year"],
  [.field "last_name", .num "birthdate", .field "birth_year"],
  [.field "first_name", .num "birthdate", .num "birth_month"],
  [.field "last_name", .num "birthdate", .num "birth_month"],
  [.field "first_name", .num "birthdate", .num "birth_month", .field "birth_year"],
  [.field "last_name", .num "birthdate", .num "birth_month", .field "birth_year"],
  [.field "first_name", .num "birthdate", .num "birth_month", .field "birth_year_short"],
  [.field "last_name", .num "birthdate", .num "birth_month", .field "birth_year_short"],
  [.field "first_name", .field "pet_name"]
]

def templatesChunk1 : List Template := [
  [.field "last_name", .field "pet_name"],
  [.field "pet_name", .field "first_name"],
  [.field "pet_name", .field "last_name"],
  [.field "pet_name", .num "birthdate", .num "birth_month"],
  [.field "pet_name", .field "birth_year"],
  [.field "pet_name", .field "birth_year_short"],
  [.field "pet_name", .lit "_", .field "first_name"],
  [.field "pet_name", .lit "_", .field "last_name"],
  [.field "first_name", .lit "_", .field "pet_name"],
  [.field "last_name", .lit "_", .field "pet_name"],
  [.field "first_name", .field "favorite_movie"],
  [.field "last_name", .field "favorite_movie"],
  [.field "first_name", .field "favorite_song"],
  [.field "last_name", .field "favorite_song"],
  [.field "first_name", .field "favorite_band"],
  [.field "last_name", .field "favorite_band"],
  [.field "first_name", .field "favorite_sport"],
  [.field "last_name", .field "favorite_sport"],
  [.field "first_name", .field "favorite_book"],
  [.field "last_name", .field "favorite_book"],
  [.field "first_name", .field "favorite_celebrity"],
  [.field "last_name", .field "favorite_celebrity"],
  [.field "first_name", .field "favorite_number"],
  [.field "last_name", .field "favorite_number"],
  [.field "first_name", .field "gamer_tag"],
  [.field "last_name", .field "gamer_tag"],
  [.field "gamer_tag", .field "first_name"],
  [.field "gamer_tag", .field "last_name"],
  [.field "gamer_tag", .field "birth_year"],
  [.field "gamer_tag", .field "birth_year_short"],
  [.field "first_name", .field "birthdate_str", .field "birth_month_str"],
  [.field "last_name", .field "birthdate_str", .field "birth_month_str"],
  [.field "first_name", .field "last_name", .field "birthdate_str", .field "birth_month_str"],
  [.field "last_name", .field "first_name", .field "birthdate_str", .field "birth_month_str"],
  [.field "first_name_short_3", .field "last_name_short_3", .field "birth_year"],
  [.field "first_name_short_3", .field "last_name_short_3", .field "birth_year_short"],
  [.field "first_name_short_2", .field "last_name_short_2", .field "birth_year"],
  [.field "first_name_short_2", .field "last_name_short_2", .field "birth_year_short"],
  [.field "first_name_short_4", .field "last_name_short_4", .field "birth_year"],
  [.field "first_name_short_4", .field "last_name_short_4", .field "birth_year_short"]
]

def templatesChunk2 : List Template := [
  [.field "first_name_short_3", .lit "_", .field "last_name_short_3"],
  [.field "first_name_short_2", .lit "_", .field "last_name_short_2"],
  [.field "first_name_short_4", .lit "_", .field "last_name_short_4"],
  [.field "first_name_initial", .field "last_name_initial", .field "birth_year"],
  [.field "first_name_initial", .field "last_name_initial", .field "birth_year_short"],
  [.field "first_name_initial", .field "last_name"],
  [.field "first_name", .field "last_name_initial"],
  [.field "first_name_initial", .field "last_name", .field "birthdate_str", .field "birth_month_str"],
  [.field "last_name_initial", .field "first_name", .field "birthdate_str", .field "birth_month_str"],
  [.field "first_name", .field "last_name_initial", .field "birthdate_str", .field "birth_month_str"],
  [.field "last_name", .field "first_name_initial", .field "birthdate_str", .field "birth_month_str"],
  [.field "first_name_initial", .field "last_name_initial", .lit "_", .field "birth_year"],
  [.field "first_name_initial", .field "last_name_initial", .lit "_", .field "birth_year_short"],
  [.field "first_name_initial", .field "last_name_initial", .num "birthdate", .num "birth_month"],
  [.field "last_name", .lit "@", .field "birth_year"],
  [.field "first_name", .lit "@", .field "birth_year"],
  [.field "first_name", .field "last_name", .lit "@", .field "birth_year"],
  [.field "birth_year", .lit "@", .field "first_name"],
  [.field "first_name", .field "last_name_initial", .lit "@", .field "birth_year"],
  [.field "last_name", .field "first_name_initial", .lit "@", .field "birth_year"],
  [.field "first_name_initial", .field "last_name", .lit "@", .field "birth_year"],
  [.field "last_name_initial", .field "first_name", .lit "@", .field "birth_year"],
  [.field "first_name", .field "birth_year", .lit "!"],
  [.field "last_name", .field "birth_year", .lit "?"],
  [.field "first_name", .field "last_name", .lit "#"],
  [.field "birthdate_str", .field "birth_month_str", .field "birth_year", .lit "@"],
  [.field "pet_name", .field "birth_year", .lit "$"],
  [.field "first_name", .lit "#", .field "last_name"],
  [.field "last_name", .lit "#", .field "first_name"],
  [.field "first_name", .lit "#", .field "birth_year"],
  [.field "last_name", .lit "#", .field "birth_year"],
  [.field "first_name", .lit "*", .field "last_name"],
  [.field "last_name", .lit "*", .field "first_name"],
  [.field "first_name", .lit "*", .field "birth_year"],
  [.field "last_name", .lit "*", .field "birth_year"],
  [.field "first_name", .lit "$", .field "last_name"],
  [.field "last_name", .lit "$", .field "first_name"],
  [.field "first_name", .lit "$", .field "birth_year"],
  [.field "last_name", .lit "$", .field "birth_year"],
  [.field "first_name", .lit "&", .field "last_name"]
]

def templatesChunk3 : List Template := [
  [.field "last_name", .lit "&", .field "first_name"],
  [.field "first_name", .lit "&", .field "birth_year"],
  [.field "last_name", .lit "&", .field "birth_year"],
  [.field "father_name", .field "birth_year"],
  [.field "mother_name", .field "birth_year"],
  [.field "pet_name", .field "birth_year"],
  [.field "first_name", .field "father_name", .field "birth_year"],
  [.field "last_name", .field "mother_name", .field "birth_year"],
  [.field "pet_name", .field "first_name", .field "birth_year"],
  [.field "spouse_name", .field "birth_year"],
  [.field "first_name", .field "spouse_name", .field "birth_year"],
  [.field "last_name", .field "spouse_name", .field "birth_year"],
  [.field "child_name", .field "birth_year"],
  [.field "first_name", .field "child_name", .field "birth_year"],
  [.field "last_name", .field "child_name", .field "birth_year"],
  [.field "father_name_initial", .field "mother_name_initial", .field "birth_year"],
  [.field "pet_name", .field "first_name_initial", .field "last_name_initial", .field "birth_year"],
  [.field "spouse_name", .field "child_name", .field "birth_year"],
  [.field "father_name", .lit "_", .field "birth_year"],
  [.field "mother_name", .lit "_", .field "birth_year"],
  [.field "spouse_name", .lit "_", .field "birth_year"],
  [.field "child_name", .lit "_", .field "birth_year"],
  [.field "father_name", .field "birth_year_short"],
  [.field "mother_name", .field "birth_year_short"],
  [.field "spouse_name", .field "birth_year_short"],
  [.field "child_name", .field "birth_year_short"],
  [.field "father_name_initial", .field "mother_name_initial", .field "spouse_name_initial"],
  [.field "father_name_initial", .field "mother_name_initial", .field "child_name_initial"],
  [.field "father_name_initial", .field "mother_name_initial", .field "pet_name_initial"],
  [.field "father_name_initial", .field "mother_name_initial", .field "first_name_initial"],
  [.field "father_name_initial", .field "mother_name_initial", .field "last_name_initial"],
  [.field "father_name_initial", .field "mother_name_initial", .field "birth_year"],
  [.field "father_name_initial", .field "mother_name_initial", .field "birth_year_short"],
  [.field "father_name_initial", .field "mother_name_initial", .num "birthdate", .num "birth_month"],
  [.field "first_name", .field "mother_name", .field "pet_name"],
  [.field "last_name", .field "father_name", .field "spouse_name"],
  [.field "first_name", .field "mother_name", .field "birth_year"],
  [.field "last_name", .field "father_name", .field "birth_year"],
  [.field "pet_name", .field "first_name", .field "birthdate_str", .field "birth_month_str"],
  [.field "spouse_name", .field "last_name", .field "birth_year"]
]

def templatesChunk4 : List Template := [
  [.field "child_name", .field "first_name", .field "birth_year"],
  [.field "first_name", .field "last_name", .field "pet_name", .field "birth_year"],
  [.field "first_name", .field "mother_name", .field "birth_year_short"],
  [.field "last_name", .field "father_name", .field "birth_year_short"],
  [.field "pet_name", .lit "_", .field "first_name", .lit "_", .field "birth_year"],
  [.field "spouse_name", .lit "_", .field "last_name", .lit "_", .field "birth_year"],
  [.field "first_name", .lit "_", .field "pet_name", .lit "_", .field "birth_year"],
  [.field "last_name", .lit "_", .field "spouse_name", .lit "_", .field "birth_year"],
  [.field "first_name", .field "phone_last4"],
  [.field "last_name", .field "phone_last4"],
  [.field "first_name", .lit "_", .field "phone_last4"],
  [.field "last_name", .lit "_", .field "phone_last4"],
  [.field "phone_last4", .lit "_", .field "first_name"],
  [.field "phone_last4", .lit "_", .field "last_name"],
  [.field "first_name", .field "phone_first3", .field "phone_last4"],
  [.field "last_name", .field "phone_first3", .field "phone_last4"],
  [.field "phone_first3", .field "first_name", .field "phone_last4"],
  [.field "phone_first3", .field "last_name", .field "phone_last4"],
  [.field "first_name_initial", .field "last_name_initial", .field "phone_last4"],
  [.field "first_name", .field "phone_middle", .field "birth_year_short"],
  [.field "last_name", .field "phone_middle", .field "birth_year_short"],
  [.field "first_name", .field "residence_short"],
  [.field "last_name", .field "residence_short"],
  [.field "first_name", .lit "_", .field "residence_short"],
  [.field "last_name", .lit "_", .field "residence_short"],
  [.field "residence_short", .lit "_", .field "first_name"],
  [.field "residence_short", .lit "_", .field "last_name"],
  [.field "first_name", .field "birthplace_short"],
  [.field "last_name", .field "birthplace_short"],
  [.field "first_name", .lit "_", .field "birthplace_short"],
  [.field "last_name", .lit "_", .field "birthplace_short"],
  [.field "birthplace_short", .lit "_", .field "first_name"],
  [.field "birthplace_short", .lit "_", .field "last_name"],
  [.field "residence_short", .field "birth_year"],
  [.field "residence_short", .field "birth_year_short"],
  [.field "birthplace_short", .field "birth_year"],
  [.field "birthplace_short", .field "birth_year_short"],
  [.field "first_name", .field "social_id"],
  [.field "last_name", .field "social_id"],
  [.field "social_id", .field "first_name"]
]

def templatesChunk5 : List Template := [
  [.field "social_id", .field "last_name"],
  [.field "social_id", .field "birth_year"],
  [.field "social_id", .field "birth_year_short"],
  [.field "social_id", .lit "_", .field "first_name"],
  [.field "social_id", .lit "_", .field "last_name"],
  [.field "first_name", .lit "_", .field "social_id"],
  [.field "last_name", .lit "_", .field "social_id"],
  [.field "first_name", .field "device_name"],
  [.field "last_name", .field "device_name"],
  [.field "device_name", .field "first_name"],
  [.field "device_name", .field "last_name"],
  [.field "device_name", .field "birth_year"],
  [.field "device_name", .field "birth_year_short"],
  [.field "device_name", .lit "_", .field "first_name"],
  [.field "device_name", .lit "_", .field "last_name"],
  [.field "first_name", .lit "_", .field "device_name"],
  [.field "last_name", .lit "_", .field "device_name"],
  [.field "first_name", .lit "123456"],
  [.field "last_name", .lit "123456"],
  [.lit "123456", .field "first_name"],
  [.lit "123456", .field "last_name"],
  [.field "first_name", .lit "123"],
  [.field "last_name", .lit "123"],
  [.lit "123", .field "first_name"],
  [.lit "123", .field "last_name"],
  [.field "first_name", .lit "12345"],
  [.field "last_name", .lit "12345"],
  [.lit "12345", .field "first_name"],
  [.lit "12345", .field "last_name"],
  [.field "first_name", .lit "1234"],
  [.field "last_name", .lit "1234"],
  [.lit "1234", .field "first_name"],
  [.lit "1234", .field "last_name"],
  [.field "birth_year", .lit "abcdef"],
  [.lit "abcdef", .field "birth_year"],
  [.field "first_name", .lit "password"],
  [.lit "password", .field "first_name"],
  [.field "last_name", .lit "password"],
  [.lit "password", .field "last_name"],
  [.field "first_name", .lit "qwerty"]
]

def templatesChunk6 : List Template := [
  [.field "last_name", .lit "qwerty"],
  [.lit "qwerty", .field "first_name"],
  [.lit "qwerty", .field "last_name"],
  [.field "first_name", .lit "abc123"],
  [.field "last_name", .lit "abc123"],
  [.lit "abc123", .field "first_name"],
  [.lit "abc123", .field "last_name"],
  [.field "first_name", .lit "welcome"],
  [.field "last_name", .lit "welcome"],
  [.lit "welcome", .field "first_name"],
  [.lit "welcome", .field "last_name"],
  [.field "first_name", .lit "dragon"],
  [.field "last_name", .lit "dragon"],
  [.lit "dragon", .field "first_name"],
  [.lit "dragon", .field "last_name"],
  [.field "first_name", .lit "monkey"],
  [.field "last_name", .lit "monkey"],
  [.lit "monkey", .field "first_name"],
  [.lit "monkey", .field "last_name"],
  [.field "first_name", .lit "football"],
  [.field "last_name", .lit "football"],
  [.lit "football", .field "first_name"],
  [.lit "football", .field "last_name"],
  [.field "first_name", .lit "baseball"],
  [.field "last_name", .lit "baseball"],
  [.lit "baseball", .field "first_name"],
  [.lit "baseball", .field "last_name"],
  [.field "first_name", .lit "superman"],
  [.field "last_name", .lit "superman"],
  [.lit "superman", .field "first_name"],
  [.lit "superman", .field "last_name"],
  [.field "first_name", .lit "batman"],
  [.field "last_name", .lit "batman"],
  [.lit "batman", .field "first_name"],
  [.lit "batman", .field "last_name"],
  [.field "birth_month_str", .lit "/", .field "birthdate_str", .lit "/", .field "birth_year"],
  [.field "birthdate_str", .lit "-", .field "birth_month_str", .lit "-", .field "birth_year"],
  [.field "birth_year", .lit "-", .field "birth_month_str", .lit "-", .field "birthdate_str"],
  [.field "first_name", .field "birth_month_str", .lit "/", .field "birthdate_str"],
  [.field "last_name", .field "birth_year", .lit "-", .field "birth_month_str"]
]

def templatesChunk7 : List Template := [
  [.field "birth_year", .field "first_name", .field "last_name"],
  [.field "birth_month_str", .field "birthdate_str", .field "birth_year"],
  [.field "birth_year", .field "birth_month_str", .field "birthdate_str"],
  [.field "birthdate_str", .field "birth_month_str", .lit "-", .field "birth_year"],
  [.field "birth_month_str", .lit "-", .field "birthdate_str", .lit "-", .field "birth_year"],
  [.field "birth_year", .field "birth_month_str", .lit "-", .field "birthdate_str"],
  [.field "first_name", .field "birth_month_str", .field "birthdate_str", .field "birth_year_short"],
  [.field "last_name", .field "birth_month_str", .field "birthdate_str", .field "birth_year_short"],
  [.field "first_name_rev", .field "birth_year"],
  [.field "last_name_rev", .field "birth_year"],
  [.field "first_name", .field "last_name_rev", .field "birth_year"],
  [.field "first_name_rev", .field "last_name", .field "birth_year"],
  [.field "birth_year_rev", .field "first_name"],
  [.field "birth_year_rev", .field "last_name"],
  [.field "first_name", .field "birth_year_rev", .field "last_name"],
  [.field "first_name_rev", .field "birth_year_short"],
  [.field "last_name_rev", .field "birth_year_short"],
  [.field "first_name", .field "last_name_rev", .field "birth_year_short"],
  [.field "first_name_rev", .field "last_name", .field "birth_year_short"],
  [.field "birth_year_rev", .field "first_name_rev"],
  [.field "birth_year_rev", .field "last_name_rev"],
  [.field "first_name_rev", .lit "_", .field "last_name_rev"],
  [.field "first_name_rev", .lit "_", .field "last_name"],
  [.field "first_name", .lit "_", .field "last_name_rev"],
  [.field "first_name", .lit "!", .field "last_name", .field "birth_year"],
  [.field "last_name", .lit "@", .field "first_name", .field "birth_year"],
  [.field "birth_year", .lit "#", .field "first_name", .field "last_name"],
  [.field "first_name", .field "last_name", .lit "$", .field "birthdate_str", .field "birth_month_str"],
  [.field "birthdate_str", .field "birth_month_str", .lit "%", .field "first_name", .field "last_name"],
  [.field "first_name", .lit "!", .field "last_name"],
  [.field "last_name", .lit "@", .field "first_name"],
  [.field "first_name", .lit "#", .field "birth_year"],
  [.field "last_name", .lit "$", .field "birth_year"],
  [.field "birth_year", .lit "%", .field "first_name"],
  [.field "birth_year", .lit "^", .field "last_name"],
  [.field "first_name", .lit "&", .field "last_name", .field "birth_year"],
  [.field "last_name", .lit "*", .field "first_name", .field "birth_year"],
  [.field "birth_year", .lit "(", .field "first_name", .field "last_name"],
  [.field "first_name", .field "last_name", .lit ")", .field "birthdate_str", .field "birth_month_str"],
  [.field "birthdate_str", .field "birth_month_str", .lit "-", .field "first_name", .field "last_name"]
]

def templatesChunk8 : List Template := [
  [.field "first_name", .lit "+", .field "last_name"],
  [.field "last_name", .lit "=", .field "first_name"],
  [.field "first_name", .lit "//", .field "birth_year"],
  [.field "last_name", .lit "\\", .field "birth_year"],
  [.field "birth_year", .lit "|", .field "first_name"],
  [.field "birth_year", .lit "~", .field "last_name"],
  [.field "first_name", .lit "00"],
  [.field "last_name", .lit "00"],
  [.field "first_name", .lit "01"],
  [.field "last_name", .lit "01"],
  [.field "first_name", .lit "02"],
  [.field "last_name", .lit "02"],
  [.field "first_name", .lit "69"],
  [.field "last_name", .lit "69"],
  [.field "first_name", .lit "007"],
  [.field "last_name", .lit "007"],
  [.field "first_name", .lit "777"],
  [.field "last_name", .lit "777"],
  [.field "first_name", .lit "111"],
  [.field "last_name", .lit "111"],
  [.field "first_name", .lit "222"],
  [.field "last_name", .lit "222"],
  [.field "first_name", .lit "333"],
  [.field "last_name", .lit "333"],
  [.field "first_name", .lit "666"],
  [.field "last_name", .lit "666"],
  [.field "first_name", .lit "999"],
  [.field "last_name", .lit "999"],
  [.field "first_name", .lit "1234567"],
  [.field "last_name", .lit "1234567"],
  [.field "first_name", .lit "7654321"],
  [.field "last_name", .lit "7654321"],
  [.field "first_name", .lit "11111"],
  [.field "last_name", .lit "11111"],
  [.field "first_name", .lit "22222"],
  [.field "last_name", .lit "22222"],
  [.field "first_name", .lit "55555"],
  [.field "last_name", .lit "55555"],
  [.field "first_name", .lit "0000"],
  [.field "last_name", .lit "0000"]
]

def templatesChunk9 : List Template := [
  [.field "first_name", .lit "0123"],
  [.field "last_name", .lit "0123"],
  [.field "first_name", .lit "6789"],
  [.field "last_name", .lit "6789"],
  [.field "first_name_initial", .field "last_name", .field "phone_last4"],
  [.field "last_name_initial", .field "first_name", .field "phone_last4"],
  [.field "first_name", .field "last_name_initial", .field "birth_year"],
  [.field "last_name", .field "first_name_initial", .field "birth_year"],
  [.field "first_name_initial", .field "last_name_initial", .field "birth_year", .field "phone_last4"],
  [.field "father_name_initial", .field "mother_name_initial", .field "first_name_initial", .field "last_name_initial"],
  [.field "first_name_short_2", .field "last_name_short_2", .field "birth_month_str", .field "birthdate_str"],
  [.field "birthplace_short", .field "residence_short", .field "birth_year_short"],
  [.field "device_name", .field "birth_year", .field "phone_last4"],
  [.field "social_id", .field "birth_year", .field "phone_last4"],
  [.field "pet_name_initial", .field "first_name_initial", .field "last_name_initial", .field "birth_year_short"],
  [.field "father_name_short_3", .field "mother_name_initial", .field "birth_year_short"],
  [.field "first_name", .lit "_", .field "last_name", .lit "_", .field "birth_year"],
  [.field "first_name", .lit ".", .field "last_name", .lit ".", .field "birth_year"],
  [.field "first_name", .lit "-", .field "last_name", .lit "-", .field "birth_year"],
  [.field "favorite_band", .field "birth_year"],
  [.field "favorite_song", .field "birth_year"],
  [.field "favorite_movie", .field "birth_year"],
  [.field "favorite_number", .field "first_name", .field "birth_year"],
  [.field "gamer_tag", .field "phone_last4"],
  [.field "social_id", .field "phone_last4"],
  [.field "pet_name", .lit "_", .field "birth_year", .lit "_", .field "phone_last4"],
  [.lit "password123"],
  [.lit "admin123"],
  [.lit "welcome123"],
  [.lit "letmein123"],
  [.lit "123456789"],
  [.lit "12345678"],
  [.lit "qwerty123"],
  [.lit "abc123xyz"],
  [.lit "1q2w3e4r"],
  [.lit "qazwsx123"],
  [.lit "password1!"],
  [.lit "P@ssw0rd"],
  [.lit "passw0rd"],
  [.lit "Football123"]
]

def templatesChunk10 : List Template := [
  [.lit "Baseball123"],
  [.lit "Princess123"],
  [.lit "Superman123"],
  [.lit "Batman123"],
  [.lit "Trustno1"],
  [.lit "iloveyou123"],
  [.lit "sunshine123"],
  [.lit "monkey123"],
  [.lit "dragon123"],
  [.lit "master123"],
  [.lit "login123"],
  [.lit "solo123"],
  [.lit "access123"],
  [.lit "flower123"],
  [.lit "forever123"],
  [.lit "hunter123"]
]

/-- The template catalog `ALGORITHM_TEMPLATE` of
src/modules/pattern_generator.py, each format string parsed into its pieces
(order preserved; 416 entries, assembled from chunks). -/
def ALGORITHM_TEMPLATE : List Template :=
  templatesChunk0 ++ templatesChunk1 ++ templatesChunk2 ++ templatesChunk3 ++ templatesChunk4 ++ templatesChunk5 ++ templatesChunk6 ++ templatesChunk7 ++ templatesChunk8 ++ templatesChunk9 ++ templatesChunk10


/-- Transformation `append_123`. -/
def append_123 (pwd : String) : Except PyErr String := .ok (pwd ++ "123")

/-- Transformation `prepend_123`. -/
def prepend_123 (pwd : String) : Except PyErr String := .ok ("123" ++ pwd)

/-- Transformation `append_exclamation`. -/
def append_exclamation (pwd : String) : Except PyErr String := .ok (pwd ++ "!")

/-- Transformation `prepend_exclamation`. -/
def prepend_exclamation (pwd : String) : Except PyErr String := .ok ("!" ++ pwd)

/-- Transformation `reverse_string`. -/
def reverse_string (pwd : String) : Except PyErr String := .ok (pyReverse pwd)

/-- Transformation `leetspeak`: `str.maketrans("aAeEiIoOsStT", "4433110055")`
is called with a 12-character and a 10-character argument, so it raises
`ValueError` before any translation happens. -/
def leetspeak (pwd : String) : Except PyErr String :=
  match pyMaketrans "aAeEiIoOsStT" "4433110055" with
  | .error e => .error e
  | .ok mapping => .ok (pyTranslate mapping pwd)

/-- Transformation `alternating_case`: upper-case the characters at even
positions, lower-case the rest. -/
def alternating_case (pwd : String) : Except PyErr String :=
  .ok (String.mk (pwd.data.enum.map
    (fun ic => if ic.1 % 2 = 0 then ic.2.toUpper else ic.2.toLower)))

/-- Transformation `append_year`. -/
def append_year (pwd : String) : Except PyErr String := .ok (pwd ++ "2023")

/-- Transformation `append_year_short`. -/
def append_year_short (pwd : String) : Except PyErr String := .ok (pwd ++ "23")

/-- Transformation `append_at`. -/
def append_at (pwd : String) : Except PyErr String := .ok (pwd ++ "@")

/-- Transformation `append_hash`. -/
def append_hash (pwd : String) : Except PyErr String := .ok (pwd ++ "#")

/-- Transformation `append_dollar`. -/
def append_dollar (pwd : String) : Except PyErr String := .ok (pwd ++ "$")

/-- Transformation `append_1`. -/
def append_1 (pwd : String) : Except PyErr String := .ok (pwd ++ "1")

/-- Transformation `append_12`. -/
def append_12 (pwd : String) : Except PyErr String := .ok (pwd ++ "12")

/-- Transformation `append_1234`. -/
def append_1234 (pwd : String) : Except PyErr String := .ok (pwd ++ "1234")

/-- Transformation `append_12345`. -/
def append_12345 (pwd : String) : Except PyErr String := .ok (pwd ++ "12345")

/-- Transformation `append_321`. -/
def append_321 (pwd : String) : Except PyErr String := .ok (pwd ++ "321")

/-- Transformation `append_0`. -/
def append_0 (pwd : String) : Except PyErr String := .ok (pwd ++ "0")

/-- Transformation `append_00`. -/
def append_00 (pwd : String) : Except PyErr String := .ok (pwd ++ "00")

/-- Transformation `append_question`. -/
def append_question (pwd : String) : Except PyErr String := .ok (pwd ++ "?")

/-- Transformation `prepend_at`. -/
def prepend_at (pwd : String) : Except PyErr String := .ok ("@" ++ pwd)

/-- Transformation `capitalize_first`: empty input is returned as is; a
single character is upper-cased whole; otherwise the first character is
upper-cased and the rest kept. -/
def capitalize_first (pwd : String) : Except PyErr String :=
  .ok (if pwd = "" then pwd
       else if pwd.length > 1 then (pyTake 1 pwd).toUpper ++ pyDrop 1 pwd
       else pwd.toUpper)

/-- Transformation `capitalize_all`. -/
def capitalize_all (pwd : String) : Except PyErr String := .ok pwd.toUpper

/-- Transformation `lowercase_all`. -/
def lowercase_all (pwd : String) : Except PyErr String := .ok pwd.toLower

/-- Transformation `double_last_char`. -/
def double_last_char (pwd : String) : Except PyErr String :=
  .ok (if pwd = "" then pwd else pwd ++ pyTakeRight 1 pwd)

/-- Transformation `between_dots`. -/
def between_dots (pwd : String) : Except PyErr String := .ok ("." ++ pwd ++ ".")

/-- Transformation `between_underscores`. -/
def between_underscores (pwd : String) : Except PyErr String := .ok ("_" ++ pwd ++ "_")

/-- Transformation `between_asterisks`. -/
def between_asterisks (pwd : String) : Except PyErr String := .ok ("*" ++ pwd ++ "*")

/-- Transformation `substitute_a_with_4`: `pwd.replace('a','4').replace('A','4')`. -/
def substitute_a_with_4 (pwd : String) : Except PyErr String :=
  .ok (pyReplace1 'A' '4' (pyReplace1 'a' '4' pwd))

/-- Transformation `substitute_e_with_3`. -/
def substitute_e_with_3 (pwd : String) : Except PyErr String :=
  .ok (pyReplace1 'E' '3' (pyReplace1 'e' '3' pwd))

/-- Transformation `substitute_i_with_1`. -/
def substitute_i_with_1 (pwd : String) : Except PyErr String :=
  .ok (pyReplace1 'I' '1' (pyReplace1 'i' '1' pwd))

/-- Transformation `substitute_o_with_0`. -/
def substitute_o_with_0 (pwd : String) : Except PyErr String :=
  .ok (pyReplace1 'O' '0' (pyReplace1 'o' '0' pwd))

/-- Transformation `substitute_s_with_5`. -/
def substitute_s_with_5 (pwd : String) : Except PyErr String :=
  .ok (pyReplace1 'S' '5' (pyReplace1 's' '5' pwd))

/-- Transformation `advanced_leetspeak`:
`str.maketrans("aAeEiIoOsStTbBlL", "443311005577881")` is called with a
16-character and a 15-character argument, so it raises `ValueError`. -/
def advanced_leetspeak (pwd : String) : Except PyErr String :=
  match pyMaketrans "aAeEiIoOsStTbBlL" "443311005577881" with
  | .error e => .error e
  | .ok mapping => .ok (pyTranslate mapping pwd)

/-- The transformation pipeline `TRANSFORMATIONS`, in source order, starting
with the identity lambda. -/
def TRANSFORMATIONS : List (String → Except PyErr String) := [
  fun pwd => .ok pwd,
  append_123,
  prepend_123,
  append_exclamation,
  prepend_exclamation,
  reverse_string,
  leetspeak,
  alternating_case,
  append_year,
  append_year_short,
  append_at,
  append_hash,
  append_dollar,
  append_1,
  append_12,
  append_1234,
  append_12345,
  append_321,
  append_0,
  append_00,
  append_question,
  prepend_at,
  capitalize_first,
  capitalize_all,
  lowercase_all,
  double_last_char,
  between_dots,
  between_underscores,
  between_asterisks,
  substitute_a_with_4,
  substitute_e_with_3,
  substitute_i_with_1,
  substitute_o_with_0,
  substitute_s_with_5,
  advanced_leetspeak
]

/-- One iteration of the loop in `apply_transformations`: apply one
transformation to `password`; keep the variant if it is non-empty and not
yet present; any exception is caught and the transformation skipped. -/
def transStep (password : String) (transformed : List String)
    (transformation : String → Except PyErr String) : List String :=
  match transformation password with
  | .ok new_pwd =>
    if new_pwd ≠ "" ∧ new_pwd ∉ transformed then transformed ++ [new_pwd] else transformed
  | .error _ => transformed

/-- `apply_transformations` of src/modules/pattern_generator.py. -/
def apply_transformations (password : String) : List String :=
  TRANSFORMATIONS.foldl (transStep password) []

/-- The template loop of `generate_base_passwords`: format each template,
skipping those that raise `KeyError` or `ValueError` (the only exceptions
the `except` clause catches); append a result only if non-empty and new;
any other exception propagates. -/
def processTemplates (d : Fields) : List Template → List String → Except PyErr (List String)
  | [], acc => .ok acc
  | t :: rest, acc =>
    match formatTemplate d t with
    | .ok formatted =>
      processTemplates d rest
        (if formatted ≠ "" ∧ formatted ∉ acc then acc ++ [formatted] else acc)
    | .error .keyError => processTemplates d rest acc
    | .error .valueError => processTemplates d rest acc
    | .error e => .error e

/-- `generate_base_passwords` of src/modules/pattern_generator.py. -/
def generate_base_passwords (p : UserProfile) : Except PyErr (List String) :=
  processTemplates (compute_extra_fields p) ALGORITHM_TEMPLATE []

/-- The inner loop of `generate_passwords`: append each variant to the
global list if not already present. -/
def aggStep (passwords : List String) (variant : String) : List String :=
  if variant ∉ passwords then passwords ++ [variant] else passwords

/-- The per-base step of `generate_passwords`: fold all variants of one
base candidate into the global list. -/
def aggInsertAll (passwords variants : List String) : List String :=
  variants.foldl aggStep passwords

/-- `generate_passwords` of src/modules/pattern_generator.py: generate the
base candidates, then fold the transformed variants of each base candidate
into one globally deduplicated list.  An exception escaping
`generate_base_passwords` propagates. -/
def generate_passwords (p : UserProfile) : Except PyErr (List String) :=
  match generate_base_passwords p with
  | .error e => .error e
  | .ok base_passwords =>
    .ok (base_passwords.foldl
      (fun passwords base => aggInsertAll passwords (apply_transformations base)) [])


/-! ### Spec-side characterization of the base-candidate builder -/

/-- Written from the spec's words for the Base Candidate Builder: the
successful, non-empty substitution results, in catalog order, with failing
templates skipped. -/
def templateOutputs (d : Fields) (ts : List Template) : List String :=
  ts.filterMap (fun t =>
    match formatTemplate d t with
    | .ok s => if s ≠ "" then some s else Option.none
    | .error _ => Option.none)

/-- Written from the spec's words for order-preserving deduplication: keep
the first occurrence of each string, deleting the later duplicates. -/
def eraseDupsKeepFirst : List String → List String
  | [] => []
  | x :: rest => x :: eraseDupsKeepFirst (rest.filter (fun y => y ≠ x))
termination_by l => l.length
decreasing_by
  simp only [List.length_cons]
  exact Nat.lt_succ_of_le (List.length_filter_le _ _)

/-- The deduplicated catalog outputs: what the spec says
`generate_base_passwords` returns. -/
def baseList (p : UserProfile) : List String :=
  eraseDupsKeepFirst (templateOutputs (compute_extra_fields p) ALGORITHM_TEMPLATE)

/-! ### Lemmas about `eraseDupsKeepFirst` -/

theorem mem_eraseDupsKeepFirst (l : List String) (x : String) :
    x ∈ eraseDupsKeepFirst l ↔ x ∈ l := by
  induction l using eraseDupsKeepFirst.induct with
  | case1 => simp [eraseDupsKeepFirst]
  | case2 a rest ih =>
    rw [eraseDupsKeepFirst]
    by_cases hxa : x = a
    · subst hxa; simp
    · simp only [List.mem_cons, hxa, false_or, ih, List.mem_filter]
      constructor
      · exact fun h => h.1
      · exact fun h => ⟨h, by simpa using hxa⟩

theorem nodup_eraseDupsKeepFirst (l : List String) :
    (eraseDupsKeepFirst l).Nodup := by
  induction l using eraseDupsKeepFirst.induct with
  | case1 => simp [eraseDupsKeepFirst]
  | case2 a rest ih =>
    rw [eraseDupsKeepFirst]
    refine List.nodup_cons.mpr ⟨fun hmem => ?_, ih⟩
    have := (mem_eraseDupsKeepFirst _ _).mp hmem
    simp [List.mem_filter] at this

/-! ### Small string facts -/

theorem string_eq_empty_of_length (t : String) (h : t.length = 0) : t = "" :=
  String.ext (List.length_eq_zero.mp h)

theorem append_ne_self (s t : String) (ht : t ≠ "") : s ++ t ≠ s := by
  intro h
  have hlen : (s ++ t).length = s.length := congrArg String.length h
  rw [String.length_append] at hlen
  exact ht (string_eq_empty_of_length t (by omega))

theorem append_ne_empty_of_right (s t : String) (ht : t ≠ "") : s ++ t ≠ "" := by
  intro h
  have hlen : (s ++ t).length = ("" : String).length := congrArg String.length h
  rw [String.length_append] at hlen
  have hz : ("" : String).length = 0 := rfl
  exact ht (string_eq_empty_of_length t (by omega))

/-! ### Totality: no uncaught exception escapes the template loop -/

/-- Syntactic check: every numeric piece of a template reads one of the two
int-valued keys. -/
def templateNumOk (t : Template) : Bool :=
  t.all (fun it => match it with
    | .num k => k = "birthdate" || k = "birth_month"
    | _ => true)

theorem dictGet_birthdate (d : Fields) : dictGet d "birthdate" = some (.int d.birthdate) := rfl

theorem dictGet_birth_month (d : Fields) : dictGet d "birth_month" = some (.int d.birth_month) := rfl

theorem formatItem_ne_typeError (d : Fields) (it : Item)
    (h : match it with
      | .num k => k = "birthdate" ∨ k = "birth_month"
      | _ => True) :
    formatItem d it ≠ .error .typeError := by
  match it with
  | .lit s => simp [formatItem]
  | .field k =>
    simp only [formatItem]
    cases dictGet d k <;> simp
  | .num k =>
    rcases h with h | h <;> subst h <;> simp [formatItem, dictGet_birthdate, dictGet_birth_month]

theorem formatTemplate_ne_typeError (d : Fields) (t : Template)
    (h : templateNumOk t = true) :
    formatTemplate d t ≠ .error .typeError := by
  induction t with
  | nil => simp [formatTemplate]
  | cons it rest ih =>
    rw [templateNumOk, List.all_cons, Bool.and_eq_true] at h
    have hit : formatItem d it ≠ .error .typeError := by
      apply formatItem_ne_typeError
      match it with
      | .lit s => trivial
      | .field k => trivial
      | .num k =>
        have := h.1
        simp only [Bool.or_eq_true, decide_eq_true_eq] at this
        exact this
    have hrest : formatTemplate d rest ≠ .error .typeError := ih h.2
    rw [formatTemplate]
    cases hfi : formatItem d it with
    | error e =>
      intro hcontra
      apply hit
      rw [hfi]
      simpa using hcontra
    | ok s =>
      cases hft : formatTemplate d rest with
      | error e =>
        intro hcontra
        apply hrest
        rw [hft]
        simpa using hcontra
      | ok r => simp

set_option maxRecDepth 100000 in
theorem all_templates_numOk : ALGORITHM_TEMPLATE.all templateNumOk = true := by decide

/-! ### The refinement equation for `processTemplates` -/

theorem filter_filter_notmem (l acc : List String) (s : String) :
    (l.filter (fun y => y ∉ acc)).filter (fun y => y ≠ s) =
      l.filter (fun y => y ∉ acc ++ [s]) := by
  rw [List.filter_filter]
  apply List.filter_congr
  intro a _
  by_cases ha : a ∈ acc <;> by_cases has : a = s <;> simp [ha, has, List.mem_append]

theorem processTemplates_nil (d : Fields) (acc : List String) :
    processTemplates d [] acc = .ok acc := rfl

theorem processTemplates_spec (d : Fields) (ts : List Template) (acc : List String)
    (h : ∀ t ∈ ts, formatTemplate d t ≠ .error .typeError) :
    processTemplates d ts acc =
      .ok (acc ++ eraseDupsKeepFirst ((templateOutputs d ts).filter (fun y => y ∉ acc))) := by
  induction ts generalizing acc with
  | nil =>
    rw [processTemplates_nil]
    simp [templateOutputs, eraseDupsKeepFirst]
  | cons t rest ih =>
    have hrest : ∀ u ∈ rest, formatTemplate d u ≠ .error .typeError :=
      fun u hu => h u (List.mem_cons_of_mem _ hu)
    cases hft : formatTemplate d t with
    | error e =>
      have ht : formatTemplate d t ≠ .error .typeError := h t (List.mem_cons_self _ _)
      have hout : templateOutputs d (t :: rest) = templateOutputs d rest := by
        simp [templateOutputs, List.filterMap_cons, hft]
      cases e with
      | keyError =>
        have hstep : processTemplates d (t :: rest) acc = processTemplates d rest acc := by
          simp only [processTemplates, hft]
        rw [hstep, hout]
        exact ih acc hrest
      | valueError =>
        have hstep : processTemplates d (t :: rest) acc = processTemplates d rest acc := by
          simp only [processTemplates, hft]
        rw [hstep, hout]
        exact ih acc hrest
      | typeError => exact absurd (by rw [hft]) ht
    | ok s =>
      have hstep : processTemplates d (t :: rest) acc =
          processTemplates d rest (if s ≠ "" ∧ s ∉ acc then acc ++ [s] else acc) := by
        simp only [processTemplates, hft]
      by_cases hs : s = ""
      · subst hs
        have hout : templateOutputs d (t :: rest) = templateOutputs d rest := by
          simp [templateOutputs, List.filterMap_cons, hft]
        rw [hstep, if_neg (by simp), hout]
        exact ih acc hrest
      · have hout : templateOutputs d (t :: rest) = s :: templateOutputs d rest := by
          simp [templateOutputs, List.filterMap_cons, hft, hs]
        by_cases hmem : s ∈ acc
        · rw [hstep, if_neg (by simp [hmem]), hout]
          have hfilter : (s :: templateOutputs d rest).filter (fun y => y ∉ acc) =
              (templateOutputs d rest).filter (fun y => y ∉ acc) := by
            simp [List.filter_cons, hmem]
          rw [hfilter]
          exact ih acc hrest
        · rw [hstep, if_pos ⟨hs, hmem⟩, hout]
          rw [ih (acc ++ [s]) hrest]
          have hfilter : (s :: templateOutputs d rest).filter (fun y => y ∉ acc) =
              s :: (templateOutputs d rest).filter (fun y => y ∉ acc) := by
            simp [List.filter_cons, hmem]
          rw [hfilter, eraseDupsKeepFirst, filter_filter_notmem]
          simp [List.append_assoc]

/-- `generate_base_passwords` never raises and returns exactly the
spec-side `baseList`. -/
theorem generate_base_passwords_eq (p : UserProfile) :
    generate_base_passwords p = .ok (baseList p) := by
  rw [generate_base_passwords,
    processTemplates_spec (compute_extra_fields p) ALGORITHM_TEMPLATE []
      (fun t ht => formatTemplate_ne_typeError _ _
        (by
          have := all_templates_numOk
          rw [List.all_eq_true] at this
          exact this t ht))]
  have : (templateOutputs (compute_extra_fields p) ALGORITHM_TEMPLATE).filter
      (fun y => y ∉ ([] : List String)) =
      templateOutputs (compute_extra_fields p) ALGORITHM_TEMPLATE := by
    apply List.filter_eq_self.mpr
    intro a _
    simp
  rw [this, baseList]
  simp


/-! ### Properties of the base list -/

theorem mem_templateOutputs (d : Fields) (ts : List Template) (t : Template) (s : String)
    (ht : t ∈ ts) (hf : formatTemplate d t = .ok s) (hs : s ≠ "") :
    s ∈ templateOutputs d ts := by
  apply List.mem_filterMap.mpr
  exact ⟨t, ht, by simp [hf, hs]⟩

theorem ne_empty_of_mem_templateOutputs (d : Fields) (ts : List Template) (s : String)
    (h : s ∈ templateOutputs d ts) : s ≠ "" := by
  rcases List.mem_filterMap.mp h with ⟨t, _, hf⟩
  rcases hft : formatTemplate d t with e | r
  · rw [hft] at hf; simp at hf
  · rw [hft] at hf
    by_cases hr : r = ""
    · simp [hr] at hf
    · simp [hr] at hf
      subst hf; exact hr

theorem password123_template_mem :
    ([Item.lit "password123"] : Template) ∈ ALGORITHM_TEMPLATE := by decide

theorem formatTemplate_lit (d : Fields) (s : String) :
    formatTemplate d [Item.lit s] = .ok (s ++ "") := rfl

theorem password123_mem_baseList (p : UserProfile) : "password123" ∈ baseList p := by
  rw [baseList, mem_eraseDupsKeepFirst]
  apply mem_templateOutputs _ _ [Item.lit "password123"]
  · exact password123_template_mem
  · rw [formatTemplate_lit]
    rw [String.append_empty]
  · intro h
    exact absurd (congrArg String.length h) (by decide)

theorem baseList_ne_nil (p : UserProfile) : baseList p ≠ [] := by
  intro h
  have := password123_mem_baseList p
  rw [h] at this
  exact List.not_mem_nil _ this

theorem baseList_nodup (p : UserProfile) : (baseList p).Nodup :=
  nodup_eraseDupsKeepFirst _

theorem baseList_ne_empty (p : UserProfile) (s : String) (h : s ∈ baseList p) : s ≠ "" := by
  rw [baseList, mem_eraseDupsKeepFirst] at h
  exact ne_empty_of_mem_templateOutputs _ _ _ h

/-! ### Properties of `apply_transformations` -/

theorem mem_transStep (password : String) (acc : List String)
    (tr : String → Except PyErr String) (x : String) (hx : x ∈ acc) :
    x ∈ transStep password acc tr := by
  cases htr : tr password with
  | error e => simp only [transStep, htr]; exact hx
  | ok s =>
    simp only [transStep, htr]
    by_cases hc : s ≠ "" ∧ s ∉ acc
    · rw [if_pos hc]; exact List.mem_append_left _ hx
    · rw [if_neg hc]; exact hx

theorem mem_foldl_transStep (password : String) (trs : List (String → Except PyErr String))
    (acc : List String) (x : String) (hx : x ∈ acc) :
    x ∈ trs.foldl (transStep password) acc := by
  induction trs generalizing acc with
  | nil => exact hx
  | cons tr rest ih =>
    rw [List.foldl_cons]
    exact ih _ (mem_transStep _ _ _ _ hx)

theorem not_mem_empty_transStep (password : String) (acc : List String)
    (tr : String → Except PyErr String) (hacc : "" ∉ acc) :
    "" ∉ transStep password acc tr := by
  cases htr : tr password with
  | error e => simp only [transStep, htr]; exact hacc
  | ok s =>
    simp only [transStep, htr]
    by_cases hc : s ≠ "" ∧ s ∉ acc
    · rw [if_pos hc]
      intro hmem
      rcases List.mem_append.mp hmem with hl | hr
      · exact hacc hl
      · exact hc.1 (List.mem_singleton.mp hr).symm
    · rw [if_neg hc]; exact hacc

theorem not_mem_empty_foldl_transStep (password : String)
    (trs : List (String → Except PyErr String)) (acc : List String)
    (hacc : "" ∉ acc) :
    "" ∉ trs.foldl (transStep password) acc := by
  induction trs generalizing acc with
  | nil => exact hacc
  | cons tr rest ih =>
    rw [List.foldl_cons]
    exact ih _ (not_mem_empty_transStep _ _ _ hacc)

theorem not_mem_empty_apply_transformations (password : String) :
    "" ∉ apply_transformations password :=
  not_mem_empty_foldl_transStep password TRANSFORMATIONS [] (List.not_mem_nil _)

theorem apply_transformations_unfold1 (password : String) :
    apply_transformations password =
      (TRANSFORMATIONS.drop 1).foldl (transStep password)
        (transStep password [] (fun pwd => .ok pwd)) := rfl

theorem apply_transformations_unfold2 (password : String) :
    apply_transformations password =
      (TRANSFORMATIONS.drop 2).foldl (transStep password)
        (transStep password (transStep password [] (fun pwd => .ok pwd)) append_123) := rfl

theorem transStep_identity (password : String) (h : password ≠ "") :
    transStep password [] (fun pwd => .ok pwd) = [password] := by
  simp only [transStep]
  rw [if_pos ⟨h, List.not_mem_nil password⟩]
  rfl

theorem mem_self_apply_transformations (password : String) (h : password ≠ "") :
    password ∈ apply_transformations password := by
  rw [apply_transformations_unfold1, transStep_identity password h]
  exact mem_foldl_transStep _ _ _ _ (List.mem_singleton.mpr rfl)

theorem transStep_append123 (password : String) :
    transStep password [password] append_123 = [password, password ++ "123"] := by
  simp only [transStep, append_123]
  have h1 : password ++ "123" ≠ "" := append_ne_empty_of_right _ _ (by decide)
  have h2 : password ++ "123" ∉ [password] := by
    intro hmem
    exact append_ne_self password "123" (by decide) (List.mem_singleton.mp hmem)
  rw [if_pos ⟨h1, h2⟩]
  rfl

theorem mem_append123_apply_transformations (password : String) (h : password ≠ "") :
    password ++ "123" ∈ apply_transformations password := by
  rw [apply_transformations_unfold2, transStep_identity password h,
    transStep_append123 password]
  exact mem_foldl_transStep _ _ _ _ (by simp)

/-! ### Properties of the aggregation loop in `generate_passwords` -/

theorem mem_aggStep (acc : List String) (v x : String) (hx : x ∈ acc) :
    x ∈ aggStep acc v := by
  rw [aggStep]
  by_cases hv : v ∈ acc
  · rw [if_neg (by simp [hv])]; exact hx
  · rw [if_pos hv]; exact List.mem_append_left _ hx

theorem self_mem_aggStep (acc : List String) (v : String) : v ∈ aggStep acc v := by
  rw [aggStep]
  by_cases hv : v ∈ acc
  · rw [if_neg (by simp [hv])]; exact hv
  · rw [if_pos hv]; exact List.mem_append_right _ (List.mem_singleton.mpr rfl)

theorem mem_foldl_aggStep_left (vs : List String) :
    ∀ acc x, x ∈ acc → x ∈ vs.foldl aggStep acc := by
  induction vs with
  | nil => exact fun acc x hx => hx
  | cons w rest ih =>
    intro acc x hx
    rw [List.foldl_cons]
    exact ih _ _ (mem_aggStep _ _ _ hx)

theorem mem_foldl_aggStep_right (vs : List String) :
    ∀ acc v, v ∈ vs → v ∈ vs.foldl aggStep acc := by
  induction vs with
  | nil => exact fun acc v hv => absurd hv (List.not_mem_nil _)
  | cons w rest ih =>
    intro acc v hv
    rw [List.foldl_cons]
    rcases List.mem_cons.mp hv with hvw | hvrest
    · subst hvw
      exact mem_foldl_aggStep_left _ _ _ (self_mem_aggStep _ _)
    · exact ih _ _ hvrest

theorem mem_aggInsertAll_left (acc vs : List String) (x : String) (hx : x ∈ acc) :
    x ∈ aggInsertAll acc vs :=
  mem_foldl_aggStep_left vs acc x hx

theorem mem_aggInsertAll_right (acc vs : List String) (v : String) (hv : v ∈ vs) :
    v ∈ aggInsertAll acc vs :=
  mem_foldl_aggStep_right vs acc v hv

/-- The outer fold of `generate_passwords`. -/
def aggFold (bases : List String) (acc : List String) : List String :=
  bases.foldl (fun passwords base => aggInsertAll passwords (apply_transformations base)) acc

theorem generate_passwords_eq (p : UserProfile) :
    generate_passwords p = .ok (aggFold (baseList p) []) := by
  rw [generate_passwords, generate_base_passwords_eq p, aggFold]

theorem mem_aggFold_left (bases : List String) :
    ∀ acc x, x ∈ acc → x ∈ aggFold bases acc := by
  induction bases with
  | nil => exact fun acc x hx => hx
  | cons b rest ih =>
    intro acc x hx
    rw [aggFold, List.foldl_cons]
    exact ih _ _ (mem_aggInsertAll_left _ _ _ hx)

theorem mem_aggFold_of_variant (bases : List String) :
    ∀ acc b v, b ∈ bases → v ∈ apply_transformations b → v ∈ aggFold bases acc := by
  induction bases with
  | nil => exact fun acc b v hb _ => absurd hb (List.not_mem_nil _)
  | cons c rest ih =>
    intro acc b v hb hv
    rw [aggFold, List.foldl_cons]
    rcases List.mem_cons.mp hb with hbc | hbrest
    · subst hbc
      exact mem_aggFold_left _ _ _ (mem_aggInsertAll_right _ _ _ hv)
    · exact ih _ _ _ hbrest hv

theorem nodup_aggStep (acc : List String) (v : String) (hacc : acc.Nodup) :
    (aggStep acc v).Nodup := by
  rw [aggStep]
  by_cases hv : v ∈ acc
  · rw [if_neg (by simp [hv])]; exact hacc
  · rw [if_pos hv]
    exact List.Nodup.append hacc (List.nodup_singleton v) (List.disjoint_singleton.mpr hv)

theorem nodup_aggInsertAll (vs : List String) :
    ∀ acc, acc.Nodup → (aggInsertAll acc vs).Nodup := by
  induction vs with
  | nil => exact fun acc hacc => hacc
  | cons v rest ih =>
    intro acc hacc
    rw [aggInsertAll, List.foldl_cons]
    exact ih _ (nodup_aggStep _ _ hacc)

theorem nodup_aggFold (bases : List String) :
    ∀ acc, acc.Nodup → (aggFold bases acc).Nodup := by
  induction bases with
  | nil => exact fun acc hacc => hacc
  | cons b rest ih =>
    intro acc hacc
    rw [aggFold, List.foldl_cons]
    exact ih _ (nodup_aggInsertAll _ _ hacc)

theorem not_mem_empty_aggStep (acc : List String) (v : String)
    (hacc : "" ∉ acc) (hv : v ≠ "") : "" ∉ aggStep acc v := by
  rw [aggStep]
  by_cases hmem : v ∈ acc
  · rw [if_neg (by simp [hmem])]; exact hacc
  · rw [if_pos hmem]
    intro habs
    rcases List.mem_append.mp habs with hl | hr
    · exact hacc hl
    · exact hv (List.mem_singleton.mp hr).symm

theorem not_mem_empty_aggInsertAll (vs : List String) :
    ∀ acc, "" ∉ acc → "" ∉ vs → "" ∉ aggInsertAll acc vs := by
  induction vs with
  | nil => exact fun acc hacc _ => hacc
  | cons v rest ih =>
    intro acc hacc hvs
    rw [aggInsertAll, List.foldl_cons]
    apply ih _ _ (fun hmem => hvs (List.mem_cons_of_mem _ hmem))
    exact not_mem_empty_aggStep _ _ hacc
      (fun habs => hvs (List.mem_cons.mpr (Or.inl habs.symm)))

theorem not_mem_empty_aggFold (bases : List String) :
    ∀ acc, "" ∉ acc → "" ∉ aggFold bases acc := by
  induction bases with
  | nil => exact fun acc hacc => hacc
  | cons b rest ih =>
    intro acc hacc
    rw [aggFold, List.foldl_cons]
    exact ih _ (not_mem_empty_aggInsertAll _ _ hacc
      (not_mem_empty_apply_transformations b))


/-! ### Further helpers for the claims -/

theorem exists_max_length (l : List String) (h : l ≠ []) :
    ∃ b ∈ l, ∀ x ∈ l, x.length ≤ b.length := by
  induction l with
  | nil => exact absurd rfl h
  | cons a rest ih =>
    rcases Decidable.em (rest = []) with hr | hr
    · subst hr
      refine ⟨a, List.mem_singleton.mpr rfl, ?_⟩
      intro x hx
      rw [List.mem_singleton.mp hx]
    · rcases ih hr with ⟨b, hb, hmax⟩
      by_cases hab : a.length ≤ b.length
      · refine ⟨b, List.mem_cons_of_mem _ hb, ?_⟩
        intro x hx
        rcases List.mem_cons.mp hx with hxa | hxr
        · rw [hxa]; exact hab
        · exact hmax x hxr
      · refine ⟨a, List.mem_cons_self _ _, ?_⟩
        intro x hx
        rcases List.mem_cons.mp hx with hxa | hxr
        · rw [hxa]
        · exact le_trans (hmax x hxr) (le_of_not_le hab)

/-- Absence of every optional profile attribute: the input class named by the
spec's "Profile with only required fields populated". -/
abbrev allOptionalAbsent (p : UserProfile) : Prop :=
  p.nickname = Option.none ∧ p.father_name = Option.none ∧ p.mother_name = Option.none ∧
  p.spouse_name = Option.none ∧ p.child_name = Option.none ∧ p.pet_name = Option.none ∧
  p.company_name = Option.none ∧ p.ex_partner_name = Option.none ∧
  p.school_name = Option.none ∧ p.college_name = Option.none ∧
  p.favorite_movie = Option.none ∧ p.favorite_song = Option.none ∧
  p.favorite_band = Option.none ∧ p.favorite_sport = Option.none ∧
  p.favorite_book = Option.none ∧ p.favorite_celebrity = Option.none ∧
  p.gamer_tag = Option.none ∧ p.device_names = [] ∧ p.favorite_number = Option.none ∧
  p.facebook_id = Option.none ∧ p.twitter_id = Option.none ∧ p.instagram_id = Option.none ∧
  p.linkedin_id = Option.none ∧ p.github_id = Option.none ∧ p.reddit_id = Option.none ∧
  p.tiktok_id = Option.none ∧ p.snapchat_id = Option.none ∧ p.pinterest_id = Option.none ∧
  p.youtube_id = Option.none

/-- A concrete profile with only the required fields populated, used to
instantiate the universally quantified theorems. -/
def onlyRequiredProfile : UserProfile :=
  { first_name := "Ann", last_name := "Lee", birthdate := 3, birth_month := 9,
    birth_year := 2005, birthplace := "Rome", residence := "Oslo",
    phone_number := "5551234567", email := "ann@example.com" }

theorem petTemplate_mem :
    ([Item.field "first_name", Item.field "pet_name"] : Template) ∈ ALGORITHM_TEMPLATE := by
  decide

/-- The optional relation-name fields that catalog templates reference
directly through a plain placeholder. -/
def relationFields : List String :=
  ["father_name", "mother_name", "spouse_name", "child_name", "pet_name"]

/-- The profile attribute stored under a relation-name key. -/
def relationValue (p : UserProfile) : String → Option String
  | "father_name" => p.father_name
  | "mother_name" => p.mother_name
  | "spouse_name" => p.spouse_name
  | "child_name" => p.child_name
  | "pet_name" => p.pet_name
  | _ => Option.none

/-- The plain-placeholder keys occurring in the catalog templates that
reference a relation-name field; all of them are keys of the dict. -/
def presentKeys : List String :=
  ["first_name", "last_name", "father_name", "mother_name", "spouse_name",
   "child_name", "pet_name", "first_name_initial", "last_name_initial",
   "birth_year", "birth_year_short", "birthdate_str", "birth_month_str",
   "phone_last4"]

/-- Syntactic check of one format-string piece: a plain placeholder reads a
key of `presentKeys`, a numeric placeholder reads one of the two int-valued
keys. -/
def itemPresentOk : Item → Bool
  | .lit _ => true
  | .field k => decide (k ∈ presentKeys)
  | .num k => k = "birthdate" || k = "birth_month"

/-- Syntactic check that every piece of a template passes `itemPresentOk`. -/
def templateAllPresent (t : Template) : Bool :=
  t.all itemPresentOk

/-- Syntactic check that a template references some relation-name field
directly through a plain placeholder. -/
def referencesRelation (t : Template) : Bool :=
  t.any (fun it => relationFields.any (fun k => it = Item.field k))

set_option maxRecDepth 100000 in
theorem relation_templates_all_present :
    ALGORITHM_TEMPLATE.all
      (fun t => !referencesRelation t || templateAllPresent t) = true := by
  decide

theorem dictGet_isSome_of_mem (d : Fields) (k : String) (hk : k ∈ presentKeys) :
    (dictGet d k).isSome := by
  have h : k = "first_name" ∨ k = "last_name" ∨ k = "father_name" ∨
      k = "mother_name" ∨ k = "spouse_name" ∨ k = "child_name" ∨ k = "pet_name" ∨
      k = "first_name_initial" ∨ k = "last_name_initial" ∨ k = "birth_year" ∨
      k = "birth_year_short" ∨ k = "birthdate_str" ∨ k = "birth_month_str" ∨
      k = "phone_last4" := by simpa [presentKeys] using hk
  rcases h with rfl | rfl | rfl | rfl | rfl | rfl | rfl | rfl | rfl | rfl | rfl |
    rfl | rfl | rfl <;> rfl

theorem dictGet_relation_none (p : UserProfile) (k : String)
    (hk : k ∈ relationFields) (h : relationValue p k = Option.none) :
    dictGet (compute_extra_fields p) k = some Val.none := by
  have hcases : k = "father_name" ∨ k = "mother_name" ∨ k = "spouse_name" ∨
      k = "child_name" ∨ k = "pet_name" := by simpa [relationFields] using hk
  rcases hcases with rfl | rfl | rfl | rfl | rfl
  · have h1 : p.father_name = Option.none := h
    show some (optVal p.father_name) = some Val.none
    rw [h1]; rfl
  · have h1 : p.mother_name = Option.none := h
    show some (optVal p.mother_name) = some Val.none
    rw [h1]; rfl
  · have h1 : p.spouse_name = Option.none := h
    show some (optVal p.spouse_name) = some Val.none
    rw [h1]; rfl
  · have h1 : p.child_name = Option.none := h
    show some (optVal p.child_name) = some Val.none
    rw [h1]; rfl
  · have h1 : p.pet_name = Option.none := h
    show some (optVal p.pet_name) = some Val.none
    rw [h1]; rfl

theorem formatItem_ok (d : Fields) (it : Item) (h : itemPresentOk it = true) :
    ∃ s, formatItem d it = .ok s := by
  match it with
  | .lit s => exact ⟨s, rfl⟩
  | .field k =>
    have hmem : k ∈ presentKeys := by
      simp only [itemPresentOk, decide_eq_true_eq] at h
      exact h
    have hsome := dictGet_isSome_of_mem d k hmem
    rcases hv : dictGet d k with _ | v
    · rw [hv] at hsome; simp at hsome
    · exact ⟨pyStr v, by simp [formatItem, hv]⟩
  | .num k =>
    simp only [itemPresentOk, Bool.or_eq_true, decide_eq_true_eq] at h
    rcases h with rfl | rfl
    · exact ⟨pyFormat02d d.birthdate, by simp [formatItem, dictGet_birthdate]⟩
    · exact ⟨pyFormat02d d.birth_month, by simp [formatItem, dictGet_birth_month]⟩

theorem formatTemplate_ok (d : Fields) (t : Template)
    (h : templateAllPresent t = true) :
    ∃ s, formatTemplate d t = .ok s := by
  induction t with
  | nil => exact ⟨"", rfl⟩
  | cons it rest ih =>
    rw [templateAllPresent, List.all_cons, Bool.and_eq_true] at h
    obtain ⟨si, hi⟩ := formatItem_ok d it h.1
    obtain ⟨sr, hr⟩ := ih h.2
    exact ⟨si ++ sr, by simp only [formatTemplate, hi, hr]⟩

theorem formatTemplate_contains_None (d : Fields) (t : Template)
    (hall : templateAllPresent t = true) (k : String)
    (href : Item.field k ∈ t) (hv : dictGet d k = some Val.none) :
    ∃ pre suf, formatTemplate d t = .ok (pre ++ "None" ++ suf) := by
  induction t with
  | nil => exact absurd href (List.not_mem_nil _)
  | cons it rest ih =>
    rw [templateAllPresent, List.all_cons, Bool.and_eq_true] at hall
    rcases List.mem_cons.mp href with hik | hirest
    · obtain ⟨sr, hr⟩ := formatTemplate_ok d rest hall.2
      have hi : formatItem d it = .ok "None" := by
        rw [← hik]
        simp [formatItem, hv, pyStr]
      exact ⟨"", sr, by simp only [formatTemplate, hi, hr, String.empty_append]⟩
    · obtain ⟨si, hi⟩ := formatItem_ok d it hall.1
      obtain ⟨pre, suf, hrest⟩ := ih hall.2 hirest
      exact ⟨si ++ pre, suf, by
        simp only [formatTemplate, hi, hrest]
        simp [String.append_assoc]⟩

theorem contains_None_ne_empty (pre suf : String) : pre ++ "None" ++ suf ≠ "" := by
  intro h
  have hlen := congrArg String.length h
  rw [String.length_append, String.length_append] at hlen
  have h4 : ("None" : String).length = 4 := rfl
  have h0 : ("" : String).length = 0 := rfl
  omega

/-- A handle counts as present when it is set and non-empty. -/
def handlePresent (o : Option String) : Bool :=
  match o with
  | some s => s ≠ ""
  | Option.none => false

/-- Spec-side definition of the social-handle derivation, written from the
claim's words: the first non-empty handle in the priority order instagram,
facebook, twitter; otherwise the raw twitter value. -/
def spec_social_id (p : UserProfile) : Val :=
  if handlePresent p.instagram_id then .str (p.instagram_id.getD "")
  else if handlePresent p.facebook_id then .str (p.facebook_id.getD "")
  else if handlePresent p.twitter_id then .str (p.twitter_id.getD "")
  else match p.twitter_id with
    | some s => .str s
    | Option.none => .none

/-- A concrete profile with none of the three social handles set. -/
def socialAbsentProfile : UserProfile :=
  { first_name := "Bea", last_name := "Cruz", birthdate := 7, birth_month := 2,
    birth_year := 1999, birthplace := "Rome", residence := "Oslo",
    phone_number := "12345", email := "bea@example.com" }

/-- A concrete profile with no pet name set. -/
def petlessProfile : UserProfile :=
  { first_name := "Cara", last_name := "Diaz", birthdate := 1, birth_month := 1,
    birth_year := 1980, birthplace := "Lima", residence := "Quito",
    phone_number := "987", email := "cara@example.com" }


/-! ### The claims -/

/-- C1: for every well-typed Profile in which every optional field is absent
(only the required fields are populated), `generate_passwords` returns,
without raising, a non-empty, duplicate-free list of strings. -/
theorem C1_required_only_nonempty_nodup (p : UserProfile)
    (h : allOptionalAbsent p) :
    ∃ l, generate_passwords p = .ok l ∧ l ≠ [] ∧ l.Nodup := by
  refine ⟨aggFold (baseList p) [], generate_passwords_eq p, ?_,
    nodup_aggFold _ _ List.nodup_nil⟩
  intro hnil
  have hmem : "password123" ∈ aggFold (baseList p) [] :=
    mem_aggFold_of_variant _ _ _ _ (password123_mem_baseList p)
      (mem_self_apply_transformations _ (by decide))
  rw [hnil] at hmem
  exact List.not_mem_nil _ hmem

/-- C1 witness: the theorem instantiated at a concrete profile with only
required fields populated. -/
theorem C1_witness :
    allOptionalAbsent onlyRequiredProfile ∧
      ∃ l, generate_passwords onlyRequiredProfile = .ok l ∧ l ≠ [] ∧ l.Nodup :=
  ⟨by decide, C1_required_only_nonempty_nodup onlyRequiredProfile (by decide)⟩

/-- C2: for every well-typed UserProfile, `generate_passwords` terminates
normally and no exception escapes: `compute_extra_fields` is a total
function of the embedding, every formatting failure is absorbed inside
`generate_base_passwords` (only `KeyError`/`ValueError` can arise and both
are caught), and every transformation failure is absorbed inside
`apply_transformations`, so the overall result is always `.ok`. -/
theorem C2_no_exception_escapes (p : UserProfile) :
    ∃ l, generate_passwords p = .ok l :=
  ⟨aggFold (baseList p) [], generate_passwords_eq p⟩

/-- C3: `generate_passwords` is deterministic — two invocations on equal
profiles return element-for-element identical lists. -/
theorem C3_deterministic (p₁ p₂ : UserProfile) (h : p₁ = p₂) :
    generate_passwords p₁ = generate_passwords p₂ := by rw [h]

/-- C3 witness: determinism instantiated at a concrete profile. -/
theorem C3_witness :
    onlyRequiredProfile = onlyRequiredProfile ∧
      generate_passwords onlyRequiredProfile = generate_passwords onlyRequiredProfile :=
  ⟨rfl, C3_deterministic onlyRequiredProfile onlyRequiredProfile rfl⟩

/-- C4 (code bug): the claim says `leetspeak` returns its input unchanged
when the input has no letter of the substitution table; in the code
`str.maketrans("aAeEiIoOsStT", "4433110055")` receives a 12-character and a
10-character argument, so `leetspeak` raises `ValueError` on every input
(including the failing input `"xyz"`, which has no table letters) and never
returns a string. -/
theorem C4_leetspeak_always_raises :
    leetspeak "xyz" = .error .valueError ∧
      ∀ pwd : String, leetspeak pwd = .error .valueError :=
  ⟨rfl, fun _ => rfl⟩

/-- C5 counterexample: on a profile with none of the three handles set, the
derived `social_id` is the Python value `None` (rendered as the text
`"None"` by templates), not the empty string the claim states. -/
theorem C5_counterexample :
    (compute_extra_fields socialAbsentProfile).social_id = Val.none ∧
      Val.none ≠ Val.str "" ∧ pyStr Val.none = "None" := by
  refine ⟨rfl, by decide, rfl⟩

/-- C5 (amended): the derived `social_id` equals the first set-and-non-empty
handle in the fixed priority order instagram, facebook, twitter; when no
handle is set-and-non-empty it equals the raw twitter value — Python `None`
(rendered as the literal text "None") when twitter is unset, or the empty
string only when twitter is set to the empty string. -/
theorem C5_social_id_priority (p : UserProfile) :
    (compute_extra_fields p).social_id = spec_social_id p := by
  show pyOr (optVal p.instagram_id) (pyOr (optVal p.facebook_id) (optVal p.twitter_id)) =
    spec_social_id p
  rw [spec_social_id]
  cases hig : p.instagram_id with
  | some ig =>
    by_cases hige : ig = "" <;>
      cases hfb : p.facebook_id <;> cases htw : p.twitter_id <;>
        simp_all [pyOr, pyTruthy, optVal, handlePresent, Option.getD]
  | none =>
    cases hfb : p.facebook_id <;> cases htw : p.twitter_id <;>
      simp_all [pyOr, pyTruthy, optVal, handlePresent, Option.getD]

/-- C6: for every Profile in which an optional relation-name field that
some catalog template references directly (father, mother, spouse, child or
pet name) is unset, every catalog template referencing that field is not
skipped by `generate_base_passwords`: the template formats successfully,
the field's no-value marker is substituted as the literal text "None", so
the formatted result contains "None" as a substring, and that result is an
element of the returned base-candidate list. -/
theorem C6_unset_relation_renders_None (p : UserProfile) (k : String)
    (hk : k ∈ relationFields) (hunset : relationValue p k = Option.none)
    (t : Template) (ht : t ∈ ALGORITHM_TEMPLATE) (href : Item.field k ∈ t)
    (bl : List String) (hbl : generate_base_passwords p = .ok bl) :
    ∃ pre suf,
      formatTemplate (compute_extra_fields p) t = .ok (pre ++ "None" ++ suf) ∧
        (pre ++ "None" ++ suf) ∈ bl := by
  have hb : bl = baseList p :=
    Except.ok.inj (hbl.symm.trans (generate_base_passwords_eq p))
  have hrefb : referencesRelation t = true := by
    rw [referencesRelation]
    apply List.any_eq_true.mpr
    refine ⟨Item.field k, href, ?_⟩
    apply List.any_eq_true.mpr
    exact ⟨k, hk, by simp⟩
  have hall : templateAllPresent t = true := by
    have h1 := List.all_eq_true.mp relation_templates_all_present t ht
    rw [hrefb] at h1
    simpa using h1
  have hvNone : dictGet (compute_extra_fields p) k = some Val.none :=
    dictGet_relation_none p k hk hunset
  obtain ⟨pre, suf, hfmt⟩ :=
    formatTemplate_contains_None (compute_extra_fields p) t hall k href hvNone
  refine ⟨pre, suf, hfmt, ?_⟩
  rw [hb, baseList, mem_eraseDupsKeepFirst]
  exact mem_templateOutputs _ _ t _ ht hfmt (contains_None_ne_empty pre suf)

/-- C6 witness: instantiated at a concrete profile with no pet name, the
relation field `pet_name` and the catalog template made of the pieces
`first_name` and `pet_name`. -/
theorem C6_witness :
    "pet_name" ∈ relationFields ∧
      relationValue petlessProfile "pet_name" = Option.none ∧
      ∃ bl, generate_base_passwords petlessProfile = .ok bl ∧
        ∃ pre suf,
          formatTemplate (compute_extra_fields petlessProfile)
              [Item.field "first_name", Item.field "pet_name"] =
            .ok (pre ++ "None" ++ suf) ∧
          (pre ++ "None" ++ suf) ∈ bl :=
  ⟨by decide, rfl, baseList petlessProfile, generate_base_passwords_eq petlessProfile,
    C6_unset_relation_renders_None petlessProfile "pet_name" (by decide) rfl
      [Item.field "first_name", Item.field "pet_name"] petTemplate_mem (by decide)
      (baseList petlessProfile) (generate_base_passwords_eq petlessProfile)⟩

/-- C7: `generate_base_passwords` processes the catalog in order, skips the
templates whose substitution fails, keeps a non-empty result only when no
earlier template produced it, and therefore returns exactly the
order-preserving first-occurrence deduplication of the successful non-empty
substitution results, a duplicate-free list. -/
theorem C7_base_builder_refinement (p : UserProfile) :
    generate_base_passwords p =
      .ok (eraseDupsKeepFirst
        (templateOutputs (compute_extra_fields p) ALGORITHM_TEMPLATE)) ∧
    (eraseDupsKeepFirst
        (templateOutputs (compute_extra_fields p) ALGORITHM_TEMPLATE)).Nodup :=
  ⟨generate_base_passwords_eq p, nodup_eraseDupsKeepFirst _⟩

/-- C8: whenever at least one base candidate exists, the final candidate
list is strictly longer than the base list (the pipeline has more than the
identity transformation). -/
theorem C8_transformations_grow (p : UserProfile) (bl fl : List String)
    (hbl : generate_base_passwords p = .ok bl)
    (hfl : generate_passwords p = .ok fl)
    (hne : bl ≠ []) :
    1 < TRANSFORMATIONS.length ∧ bl.length < fl.length := by
  refine ⟨by decide, ?_⟩
  have hb : bl = baseList p :=
    Except.ok.inj (hbl.symm.trans (generate_base_passwords_eq p))
  have hf : fl = aggFold (baseList p) [] :=
    Except.ok.inj (hfl.symm.trans (generate_passwords_eq p))
  rcases exists_max_length bl hne with ⟨b, hbmem, hbmax⟩
  have hbmem' : b ∈ baseList p := by rw [← hb]; exact hbmem
  have hbne : b ≠ "" := baseList_ne_empty p b hbmem'
  have hb123_mem_fl : b ++ "123" ∈ fl := by
    rw [hf]
    exact mem_aggFold_of_variant _ _ b _ hbmem'
      (mem_append123_apply_transformations b hbne)
  have hsub : ∀ x ∈ bl, x ∈ fl := by
    intro x hx
    have hx' : x ∈ baseList p := by rw [← hb]; exact hx
    rw [hf]
    exact mem_aggFold_of_variant _ _ x x hx'
      (mem_self_apply_transformations x (baseList_ne_empty p x hx'))
  have hb123_notin : b ++ "123" ∉ bl := by
    intro hmem
    have hle := hbmax _ hmem
    rw [String.length_append] at hle
    have h3 : ("123" : String).length = 3 := rfl
    omega
  have hnodup_bl : bl.Nodup := by rw [hb]; exact baseList_nodup p
  have hnodup : (bl ++ [b ++ "123"]).Nodup :=
    List.Nodup.append hnodup_bl (List.nodup_singleton _)
      (List.disjoint_singleton.mpr hb123_notin)
  have hsub' : bl ++ [b ++ "123"] ⊆ fl := by
    intro x hx
    rcases List.mem_append.mp hx with hl | hr
    · exact hsub x hl
    · rw [List.mem_singleton.mp hr]; exact hb123_mem_fl
  have hlen := (List.Nodup.subperm hnodup hsub').length_le
  rw [List.length_append, List.length_singleton] at hlen
  omega

/-- C8 witness: instantiated at a concrete profile; the hypotheses are
discharged by the totality and non-emptiness lemmas. -/
theorem C8_witness :
    generate_base_passwords onlyRequiredProfile = .ok (baseList onlyRequiredProfile) ∧
    generate_passwords onlyRequiredProfile =
      .ok (aggFold (baseList onlyRequiredProfile) []) ∧
    baseList onlyRequiredProfile ≠ [] ∧
    1 < TRANSFORMATIONS.length ∧
    (baseList onlyRequiredProfile).length <
      (aggFold (baseList onlyRequiredProfile) []).length :=
  ⟨generate_base_passwords_eq _, generate_passwords_eq _, baseList_ne_nil _,
    C8_transformations_grow onlyRequiredProfile _ _ (generate_base_passwords_eq _)
      (generate_passwords_eq _) (baseList_ne_nil _)⟩

/-- C9: no element of the final candidate list, and no element of the base
candidate list, is the empty string. -/
theorem C9_no_empty_candidates (p : UserProfile) (bl fl : List String)
    (hbl : generate_base_passwords p = .ok bl)
    (hfl : generate_passwords p = .ok fl) :
    "" ∉ fl ∧ "" ∉ bl := by
  have hb : bl = baseList p :=
    Except.ok.inj (hbl.symm.trans (generate_base_passwords_eq p))
  have hf : fl = aggFold (baseList p) [] :=
    Except.ok.inj (hfl.symm.trans (generate_passwords_eq p))
  constructor
  · rw [hf]; exact not_mem_empty_aggFold _ _ (List.not_mem_nil _)
  · rw [hb]
    intro hmem
    exact (baseList_ne_empty p _ hmem) rfl

/-- C9 witness: instantiated at a concrete profile. -/
theorem C9_witness :
    "" ∉ aggFold (baseList onlyRequiredProfile) [] ∧
      "" ∉ baseList onlyRequiredProfile :=
  C9_no_empty_candidates onlyRequiredProfile _ _ (generate_base_passwords_eq _)
    (generate_passwords_eq _)

/-- C10: every base candidate occurs in the final candidate list, because
the identity transformation is first in the pipeline, so the variants of a
base candidate start with the candidate itself, and the aggregation keeps
every variant not already present. -/
theorem C10_base_subset_final (p : UserProfile) (bl fl : List String)
    (hbl : generate_base_passwords p = .ok bl)
    (hfl : generate_passwords p = .ok fl) :
    ∀ b ∈ bl, b ∈ fl := by
  intro b hbmem
  have hb : bl = baseList p :=
    Except.ok.inj (hbl.symm.trans (generate_base_passwords_eq p))
  have hf : fl = aggFold (baseList p) [] :=
    Except.ok.inj (hfl.symm.trans (generate_passwords_eq p))
  have hbmem' : b ∈ baseList p := by rw [← hb]; exact hbmem
  rw [hf]
  exact mem_aggFold_of_variant _ _ b b hbmem'
    (mem_self_apply_transformations b (baseList_ne_empty p b hbmem'))

/-- C10 witness: instantiated at a concrete profile and the base candidate
"password123". -/
theorem C10_witness :
    "password123" ∈ baseList onlyRequiredProfile ∧
      "password123" ∈ aggFold (baseList onlyRequiredProfile) [] :=
  ⟨password123_mem_baseList _,
    C10_base_subset_final onlyRequiredProfile _ _ (generate_base_passwords_eq _)
      (generate_passwords_eq _) "password123" (password123_mem_baseList _)⟩

end DarkForge
